import Mathlib

/-!
# FirstSignal — verification of the staged-approval state machine

A shallow embedding of the FirstSignal server (src/server), centred on the
callback-query handler of `TelegramClient` (src/server/clients/telegram.py),
the message handler, the decision-prompt creation, the registration path of
`DatabaseClient`, the `BlockchainClient.store_message` outcome shape, and the
`/send` endpoint of src/server/app.py.

Conventions of the embedding:
* Stateful code becomes explicit state passing: each handler maps a
  `Store` (the in-memory `_pending_messages` dict) and an inbound event to
  the new store plus an ordered list of `Effect`s, one per outbound call the
  Python code attempts (Telegram API calls, database writes, blockchain
  writes, agent invocations).  Exceptions raised by those outbound calls are
  caught and logged by the Python code without changing control flow, so an
  `Effect` records the attempt.
* External collaborators whose answers feed back into control flow (database
  lookups, the blockchain result, the agent) are supplied by an `Env` of
  total functions; a `none`/`false` answer models a miss or a raised and
  swallowed exception, exactly where the Python code catches one.
* Python truthiness on `Optional[int]` / `Optional[str]` values (`if x:`) is
  modelled by `optIntTruthy` / `optStrTruthy`; `is not None` checks are
  modelled by `Option.isSome`.
* The Python source file stores its emoji string literals in a
  cp1252-mojibake encoding (for example the bytes of "✅" re-encoded); the
  embedding uses the intended glyphs, which no theorem depends on.
* Python dict keys `f"{chat_id}:{data}"` are modelled as structured pairs
  `(chatId, data)`; the concatenation is injective on them because the
  rendered chat id contains no colon and the split is at the first colon.
-/

/-- Python truthiness of an `Optional[str]`: `None` and `""` are falsy. -/
def optStrTruthy : Option String → Bool
  | some s => s ≠ ""
  | none => false

/-- Python truthiness of an `Optional[int]`: `None` and `0` are falsy. -/
def optIntTruthy : Option Int → Bool
  | some n => n ≠ 0
  | none => false

/-- Rendering of an `Optional[str]` inside a Python f-string: `None` prints
as the four characters `None`. -/
def pyShow : Option String → String
  | some s => s
  | none => "None"

/-- `tx_hash[:10] + "..." if len(tx_hash) > 10 else tx_hash`
(telegram.py line 507). -/
def shortHash (h : String) : String :=
  if h.length > 10 then h.take 10 ++ "..." else h

/-- Value of a list of decimal digit characters. -/
def digitsVal (l : List Char) : Nat :=
  l.foldl (fun a c => a * 10 + (c.toNat - 48)) 0

/-- `str.strip()` restricted to whitespace trimming on both ends. -/
def pyStrip (s : String) : String :=
  ⟨((s.data.dropWhile Char.isWhitespace).reverse.dropWhile Char.isWhitespace).reverse⟩

/-- Model of Python `int(str)` on ASCII input: optional surrounding
whitespace, an optional single sign, then one or more decimal digits;
anything else raises `ValueError`, modelled as `none`. -/
def pyParseInt (s : String) : Option Int :=
  match (pyStrip s).data with
  | [] => none
  | '-' :: rest =>
      if rest ≠ [] ∧ rest.all Char.isDigit then some (-(digitsVal rest : Int)) else none
  | '+' :: rest =>
      if rest ≠ [] ∧ rest.all Char.isDigit then some (digitsVal rest : Int) else none
  | l => if l.all Char.isDigit then some (digitsVal l : Int) else none

/-- `str.isdigit()` on ASCII input: nonempty and all decimal digits. -/
def pyIsDigit (s : String) : Bool :=
  s.data ≠ [] ∧ s.data.all Char.isDigit

/-- `str.lstrip("-")`: drop every leading `-`. -/
def lstripMinus (s : String) : String :=
  ⟨s.data.dropWhile (fun c => c = '-')⟩

/-- Split a character list at the first `:`; `none` when there is no colon.
Models `":" in data` together with `data.split(":", 1)`. -/
def splitFirstColonAux : List Char → Option (List Char × List Char)
  | [] => none
  | c :: cs =>
      if c = ':' then some ([], cs)
      else
        match splitFirstColonAux cs with
        | none => none
        | some (a, b) => some (c :: a, b)

/-- Parse callback data into `(action, initial_message_id)`
(telegram.py lines 416-423): split at the first colon when present, and
`int(...)` the suffix, ignoring a `ValueError` so a malformed suffix leaves
the correlation id absent. -/
def parseCbData (data : String) : String × Option Int :=
  match splitFirstColonAux data.data with
  | none => (data, none)
  | some (a, b) => (⟨a⟩, pyParseInt ⟨b⟩)

/-- Fuel-indexed worker for `listReplace`; the fuel only serves structural
termination and is irrelevant once it reaches the list's length. -/
def listReplaceAux (pat rep : List Char) : Nat → List Char → List Char
  | 0, l => l
  | _ + 1, [] => []
  | fuel + 1, c :: cs =>
      if pat ≠ [] ∧ pat.isPrefixOf (c :: cs) then
        rep ++ listReplaceAux pat rep fuel (cs.drop (pat.length - 1))
      else
        c :: listReplaceAux pat rep fuel cs

/-- Replace every non-overlapping leftmost occurrence of `pat` in `l` by
`rep`; models Python `str.replace` on character lists. -/
def listReplace (pat rep l : List Char) : List Char :=
  listReplaceAux pat rep l.length l

/-- Python `s.replace(pat, rep)`. -/
def pyReplace (s pat rep : String) : String :=
  ⟨listReplace pat.data rep.data s.data⟩

/-- One stored value of `TelegramClient._pending_messages` (telegram.py
lines 224-229): message payload awaiting reveal, id of the image message to
retract, the sender's handle, and the stage marker. -/
structure PendingData where
  message : Option String
  imageMessageId : Option Int
  senderHandle : Option String
  stage : String
deriving Repr, DecidableEq

/-- A `_pending_messages` key `f"{chat_id}:{data}"`, kept structured. -/
abbrev StoreKey := Int × String

/-- The `_pending_messages` dict, as an association list with unique keys
in every state reachable from the empty dict. -/
abbrev Store := List (StoreKey × PendingData)

/-- Dict lookup `d.get(k)`: first matching entry. -/
def storeGet : Store → StoreKey → Option PendingData
  | [], _ => none
  | (k, v) :: rest, key => if k = key then some v else storeGet rest key

/-- Dict write `d[k] = v`: replace the entry for `k`, or append one. -/
def storeInsert : Store → StoreKey → PendingData → Store
  | [], key, val => [(key, val)]
  | (k, v) :: rest, key, val =>
      if k = key then (key, val) :: rest else (k, v) :: storeInsert rest key val

/-- Dict removal `del d[k]` (guarded by `k in d` in the source): remove the
entries for `k`. On duplicate-free stores this is exactly dict deletion. -/
def storeErase : Store → StoreKey → Store
  | [], _ => []
  | (k, v) :: rest, key =>
      if k = key then storeErase rest key else (k, v) :: storeErase rest key

theorem storeGet_insert_self (s : Store) (k : StoreKey) (v : PendingData) :
    storeGet (storeInsert s k v) k = some v := by
  induction s with
  | nil => simp [storeInsert, storeGet]
  | cons hd tl ih =>
      obtain ⟨k', v'⟩ := hd
      by_cases h : k' = k <;> simp [storeInsert, storeGet, h, ih]

theorem storeGet_insert_ne (s : Store) (k k' : StoreKey) (v : PendingData)
    (h : k' ≠ k) : storeGet (storeInsert s k v) k' = storeGet s k' := by
  induction s with
  | nil => simp [storeInsert, storeGet, Ne.symm h]
  | cons hd tl ih =>
      obtain ⟨k₀, v₀⟩ := hd
      by_cases h₀ : k₀ = k
      · subst h₀
        simp [storeInsert, storeGet, Ne.symm h, h]
      · by_cases h₁ : k₀ = k' <;> simp [storeInsert, storeGet, h₀, h₁, h, ih]

theorem storeGet_erase_self (s : Store) (k : StoreKey) :
    storeGet (storeErase s k) k = none := by
  induction s with
  | nil => simp [storeErase, storeGet]
  | cons hd tl ih =>
      obtain ⟨k', v'⟩ := hd
      by_cases h : k' = k <;> simp [storeErase, storeGet, h, ih]

theorem storeGet_erase_ne (s : Store) (k k' : StoreKey) (h : k' ≠ k) :
    storeGet (storeErase s k) k' = storeGet s k' := by
  induction s with
  | nil => simp [storeErase, storeGet]
  | cons hd tl ih =>
      obtain ⟨k₀, v₀⟩ := hd
      by_cases h₀ : k₀ = k
      · subst h₀
        simp [storeErase, storeGet, Ne.symm h, h, ih]
      · by_cases h₁ : k₀ = k' <;> simp [storeErase, storeGet, h₀, h₁, h, ih]

theorem storeErase_of_get_none (s : Store) (k : StoreKey)
    (h : storeGet s k = none) : storeErase s k = s := by
  induction s with
  | nil => simp [storeErase]
  | cons hd tl ih =>
      obtain ⟨k', v'⟩ := hd
      by_cases h' : k' = k
      · simp [storeGet, h'] at h
      · simp [storeGet, h'] at h
        simp [storeErase, h', ih h]

/-- Outcome shape of `BlockchainClient.store_message`
(src/server/clients/blockchain.py lines 87-134): the method catches every
exception internally and returns a dict with a `success` flag; the
`transaction_hash` field is only consulted when `success` is true. -/
structure ChainResult where
  success : Bool
  transactionHash : String
deriving Repr, DecidableEq

/-- One outbound call attempted by the Python code.  Each constructor
mirrors one call site of the Transport Adapter / collaborators; the Python
code wraps each in `try/except` and continues on failure, so an effect
records the attempt. -/
inductive Effect where
  /-- `send_message(chat_id, text, ..., reply_markup, protect_content)`;
  `buttons` lists the inline-keyboard `(text, callback_data)` pairs, empty
  when no reply markup is passed. -/
  | sendText (chatId : Int) (text : String) (protect : Bool)
      (buttons : List (String × String))
  /-- `send_photo(chat_id, photo)`. -/
  | sendPhoto (chatId : Int) (photo : String)
  /-- `_edit_message_text(chat_id, message_id, text)`; the accept branch
  passes the stored payload, which may be `None`. -/
  | editText (chatId : Int) (messageId : Int) (text : Option String)
  /-- `delete_message(chat_id, message_id)`. -/
  | deleteMsg (chatId : Int) (messageId : Int)
  /-- `_answer_callback_query(callback_query_id, text)`. -/
  | ackCallback (cqId : String) (text : Option String)
  /-- `db.register_chat(chat_id, username)` via
  `TelegramClient.register_chat`, which swallows the result. -/
  | registerChat (chatId : Int) (username : Option String)
  /-- `blockchain_client.store_message(message)`. -/
  | chainStore (message : String)
  /-- `agent(user_input=...)`. -/
  | agentQuery (input : String)
deriving Repr, DecidableEq

/-- Answers of the external collaborators, as total functions; `none` /
`false` models both a miss and a raised-and-swallowed exception at the call
sites that catch one. -/
structure Env where
  /-- `db.find_chat_id_by_username` via `find_registered_chat`. -/
  findRegisteredChat : String → Option Int
  /-- `db.is_chat_registered` via `is_chat_registered` (errors give `false`). -/
  isRegistered : Int → Bool
  /-- `db.register_chat` result (printed and discarded by the caller). -/
  dbRegisterOk : Int → Option String → Bool
  /-- `db.get_username_by_chat_id`. -/
  getUsernameByChatId : Int → Option String
  /-- `blockchain_client.store_message` outcome. -/
  chain : String → ChainResult
  /-- Whether the module-level `agent` import succeeded (`agent is not None`). -/
  agentAvailable : Bool
  /-- Whether a call to `agent(...)` returns instead of raising. -/
  agentOk : Bool
  /-- The agent's textual response. -/
  agentResponse : String → String
  /-- `message_id` of the image-send response in the `/send` endpoint. -/
  photoMessageId : Option Int

/-- Fields read from a `callback_query` update
(telegram.py lines 382-389). -/
structure CallbackQuery where
  data : Option String
  id : Option String
  chatId : Option Int
  messageId : Option Int
  username : Option String
deriving Repr, DecidableEq

/-- Fields read from a `message` update (telegram.py lines 618-622);
`text` defaults to `""` via `message.get("text", "")`. -/
structure MessageEvent where
  chatId : Option Int
  username : Option String
  text : String
deriving Repr, DecidableEq

/-- `allowed_chat_id is not None and chat_id != allowed_chat_id`
(telegram.py lines 391, 624): a missing chat id also mismatches. -/
def allowedMismatch (allowed : Option Int) (chatId : Option Int) : Bool :=
  match allowed with
  | none => false
  | some a =>
      match chatId with
      | none => true
      | some c => c ≠ a

/-- `TelegramClient._resolve_chat_id` (telegram.py lines 50-63): a falsy
handle raises; a numeric-looking handle is parsed with `int`; otherwise the
directory is consulted and a miss raises.  `none` models the raised
`ValueError` (callers catch it). -/
def resolveChatId (env : Env) (handle : Option String) : Option Int :=
  match handle with
  | none => none
  | some hh =>
      if hh = "" then none
      else
        let h := pyStrip hh
        if pyIsDigit (lstripMinus h) then pyParseInt h
        else env.findRegisteredChat h

/-- Text of the stage-2 prompt, `send_accept_prompt` (telegram.py line 253). -/
def acceptPromptText (content : String) : String :=
  content ++ "\n\nDo you want to accept this message?"

/-- Sender-decline notice sent in the `ignore` branch
(telegram.py lines 564-566). -/
def declineNoticeText : String :=
  "Eh, looks like this arrow didn\x27t land... \n\nI find a gadget from my pocket and ready to match you someone. Just let me know when you ready."

/-- `"Got it. Kills: +1"` (telegram.py line 607). -/
def killsText : String := "Got it. Kills: +1"

/-- `"Registration complete ✅"` (telegram.py lines 403, 408). -/
def registrationCompleteText : String := "Registration complete ✅"

/-- Welcome text of `send_welcome_registration_prompt` (telegram.py
line 258). -/
def welcomeText : String :=
  "Welcome to First Signal! Tap the button below to register and start receiving signals. ∞"

/-- Base of the stage-3 reveal text (telegram.py line 504): the literal
`pending_message_data.get('sender_handle', 'Secret admirer')` returns the
stored value because the key is always present, so a `None` handle renders
as `None`. -/
def revealBase (senderHandle : Option String) : String :=
  "🌹\n\nNot so secret admirer: " ++ pyShow senderHandle

/-- Full reveal text (telegram.py lines 504-508): the blockchain
annotation is appended exactly when a result is present and successful. -/
def revealText (senderHandle : Option String) (r : Option ChainResult) : String :=
  match r with
  | some res =>
      if res.success then
        revealBase senderHandle ++ "\n\n🔗 Stored on blockchain: " ++ shortHash res.transactionHash
      else revealBase senderHandle
  | none => revealBase senderHandle

/-- Agent input built in the accept branch (telegram.py lines 523-524). -/
def agentInputText (approvedMessage recipientName : String) : String :=
  "My message \x27" ++ approvedMessage ++ "\x27 was just approved by " ++ recipientName ++ ". What should I send next to continue this connection? Give me advice for my next message to keep the conversation flowing naturally."

/-- Sender notification after acceptance (telegram.py line 532). -/
def acceptedNoticeText (recommendation : String) : String :=
  "🎯 Great news! Your message was accepted! 🎉\n\n💡 Here\x27s my recommendation for your next move:\n\n" ++ recommendation

/-- `TelegramClient.send_decision_prompt` (telegram.py lines 211-239):
build the stage-1 callback tokens, store the pending interaction when any
of the three optional payload fields is present (`is not None` checks), and
send the Yes/No prompt. -/
def sendDecisionPrompt (chatId : Int) (promptText : String)
    (initialMessageId : Option Int) (pendingMessage : Option String)
    (imageMessageId : Option Int) (senderHandle : Option String)
    (store : Store) : Store × List Effect :=
  let approveData :=
    match initialMessageId with
    | some i => "open:" ++ toString i
    | none => "open"
  let declineData :=
    match initialMessageId with
    | some i => "ignore:" ++ toString i
    | none => "ignore"
  let store' :=
    if pendingMessage.isSome ∨ imageMessageId.isSome ∨ senderHandle.isSome then
      storeInsert store (chatId, approveData)
        ⟨pendingMessage, imageMessageId, senderHandle, "open"⟩
    else store
  (store', [Effect.sendText chatId promptText true
      [("Yes ✅", approveData), ("No ❌", declineData)]])

/-- Registration branch of `_handle_callback_query` (telegram.py lines
396-411): insert into the directory (result discarded), acknowledge with
the confirmation, and edit the prompt when a truthy `message_id` exists. -/
def registerBranch (env : Env) (store : Store) (chat : Int) (cqid : String)
    (messageId : Option Int) (username : Option String) : Store × List Effect :=
  let _ := env.dbRegisterOk chat username
  let e₁ := [Effect.registerChat chat username,
             Effect.ackCallback cqid (some registrationCompleteText)]
  let e₂ :=
    if optIntTruthy messageId then
      [Effect.editText chat (messageId.getD 0) (some registrationCompleteText)]
    else []
  (store, e₁ ++ e₂)

/-- Stage-1 `open` branch of `_handle_callback_query` (telegram.py lines
426-472): when the stored interaction exists and carries a truthy message,
delete the image (when its id is truthy) and the prompt, re-key the entry
under the stage-2 token (stage set to `accept`), send the accept prompt,
and remove the stage-1 key; always acknowledge. -/
def openBranch (store : Store) (chat cqMessageId : Int) (cqid data : String)
    (initialMessageId : Option Int) : Store × List Effect :=
  let messageKey : StoreKey := (chat, data)
  match storeGet store messageKey with
  | some pd =>
      if optStrTruthy pd.message then
        let e₁ :=
          if optIntTruthy pd.imageMessageId then
            [Effect.deleteMsg chat (pd.imageMessageId.getD 0)]
          else []
        let e₂ := [Effect.deleteMsg chat cqMessageId]
        let pd' := { pd with stage := "accept" }
        let acceptData :=
          if optIntTruthy initialMessageId then
            "accept:" ++ toString (initialMessageId.getD 0)
          else "accept"
        let declineData :=
          if optIntTruthy initialMessageId then
            "decline_accept:" ++ toString (initialMessageId.getD 0)
          else "decline_accept"
        let store₁ := storeInsert store (chat, acceptData) pd'
        let e₃ := [Effect.sendText chat (acceptPromptText (pd.message.getD "")) true
            [("Accept ✅", acceptData), ("Decline ❌", declineData)]]
        let store₂ := storeErase store₁ messageKey
        (store₂, e₁ ++ e₂ ++ e₃ ++ [Effect.ackCallback cqid (some "Message opened")])
      else (store, [Effect.ackCallback cqid (some "Message opened")])
  | none => (store, [Effect.ackCallback cqid (some "Message opened")])

/-- `recipient_username or f"User {chat_id}"` (telegram.py lines 519-520):
a falsy directory answer falls back to the generic name. -/
def recipientNameOf (env : Env) (chat : Int) : String :=
  match env.getUsernameByChatId chat with
  | some u => if u ≠ "" then u else "User " ++ toString chat
  | none => "User " ++ toString chat

/-- The agent input assembled in the accept branch (telegram.py lines
523-524); the stored payload is rendered through the f-string. -/
def acceptAgentInput (env : Env) (chat : Int) (pd : PendingData) : String :=
  agentInputText (pyShow pd.message) (recipientNameOf env chat)

/-- Stage-4 agent block of the accept branch (telegram.py lines 515-538):
look up the recipient's name, call the agent, resolve the sender's chat and
send the recommendation; a raise anywhere inside is caught, so an
unresolvable sender drops only the final send. -/
def acceptAgentBlock (env : Env) (chat : Int) (pd : PendingData) : List Effect :=
  let agentInput := acceptAgentInput env chat pd
  if env.agentOk then
    match resolveChatId env pd.senderHandle with
    | some senderChatId =>
        [Effect.agentQuery agentInput,
         Effect.sendText senderChatId
           (acceptedNoticeText (env.agentResponse agentInput)) false []]
    | none => [Effect.agentQuery agentInput]
  else [Effect.agentQuery agentInput]

/-- Stage-2 `accept` branch of `_handle_callback_query` (telegram.py lines
475-546): when the stored interaction exists, store the message on chain
(when truthy), edit the prompt to the bare content, send the reveal (with
the chain outcome appended on success), run the agent block when the sender
handle is truthy and the agent is available, and remove the key; always
acknowledge. -/
def acceptBranch (env : Env) (store : Store) (chat cqMessageId : Int)
    (cqid data : String) : Store × List Effect :=
  let messageKey : StoreKey := (chat, data)
  match storeGet store messageKey with
  | some pd =>
      let chainPart :
          List Effect × Option ChainResult :=
        if optStrTruthy pd.message then
          ([Effect.chainStore (pd.message.getD "")],
           some (env.chain (pd.message.getD "")))
        else ([], none)
      let e₂ := [Effect.editText chat cqMessageId pd.message]
      let e₃ := [Effect.sendText chat (revealText pd.senderHandle chainPart.2) true []]
      let e₄ :=
        if optStrTruthy pd.senderHandle ∧ env.agentAvailable then
          acceptAgentBlock env chat pd
        else []
      let store' := storeErase store messageKey
      (store', chainPart.1 ++ e₂ ++ e₃ ++ e₄ ++
        [Effect.ackCallback cqid (some "Message accepted!")])
  | none => (store, [Effect.ackCallback cqid (some "Message accepted!")])

/-- The store key the decline branch consults: for `ignore` the
corresponding `open` key via `data.replace('ignore', 'open')`
(telegram.py line 558), for `decline_accept` the pressed key itself. -/
def declineLookupKey (chat : Int) (data action : String) : StoreKey :=
  if action = "ignore" then (chat, pyReplace data "ignore" "open")
  else (chat, data)

/-- Decline branch of `_handle_callback_query` (telegram.py lines 549-614),
for `action ∈ {ignore, decline_accept}`: `ignore` looks the interaction up
under the corresponding `open` key (notifying a truthy, resolvable sender)
and removes it; `decline_accept` uses the pressed key; both then delete the
image (when a truthy id is stored), the correlated initial message (when
the token carried one — an `is not None` check), and the prompt, send the
kills message and acknowledge. -/
def declineBranch (env : Env) (store : Store) (chat cqMessageId : Int)
    (cqid data action : String) (initialMessageId : Option Int) :
    Store × List Effect :=
  let lookupKey : StoreKey := declineLookupKey chat data action
  let pending := storeGet store lookupKey
  let notifyEffects :=
    if action = "ignore" then
      match pending with
      | some pd =>
          if optStrTruthy pd.senderHandle then
            match resolveChatId env pd.senderHandle with
            | some senderId => [Effect.sendText senderId declineNoticeText true []]
            | none => []
          else []
      | none => []
    else []
  let store' := storeErase store lookupKey
  let imageEffects :=
    match pending with
    | some pd =>
        if optIntTruthy pd.imageMessageId then
          [Effect.deleteMsg chat (pd.imageMessageId.getD 0)]
        else []
    | none => []
  let initialEffects :=
    match initialMessageId with
    | some i => [Effect.deleteMsg chat i]
    | none => []
  (store', notifyEffects ++ imageEffects ++ initialEffects ++
    [Effect.deleteMsg chat cqMessageId,
     Effect.sendText chat killsText true [],
     Effect.ackCallback cqid (some "Declined")])

/-- `TelegramClient._handle_callback_query` (telegram.py lines 380-614):
drop events from disallowed chats, route `register` presses, and dispatch
the multi-stage flow on the parsed action when the data, query id, chat id
and message id are all truthy. -/
def handleCallbackQuery (env : Env) (allowed : Option Int) (store : Store)
    (cb : CallbackQuery) : Store × List Effect :=
  if allowedMismatch allowed cb.chatId then (store, [])
  else if cb.data = some "register" ∧ optStrTruthy cb.id ∧ optIntTruthy cb.chatId then
    registerBranch env store (cb.chatId.getD 0) (cb.id.getD "") cb.messageId cb.username
  else if optStrTruthy cb.data ∧ optStrTruthy cb.id ∧ optIntTruthy cb.chatId ∧
      optIntTruthy cb.messageId then
    let data := cb.data.getD ""
    let cqid := cb.id.getD ""
    let chat := cb.chatId.getD 0
    let cqMessageId := cb.messageId.getD 0
    let parsed := parseCbData data
    if parsed.1 = "open" then
      openBranch store chat cqMessageId cqid data parsed.2
    else if parsed.1 = "accept" then
      acceptBranch env store chat cqMessageId cqid data
    else if parsed.1 = "ignore" ∨ parsed.1 = "decline_accept" then
      declineBranch env store chat cqMessageId cqid data parsed.1 parsed.2
    else (store, [])
  else (store, [])

/-- `TelegramClient._handle_message` (telegram.py lines 616-659): drop
events from disallowed chats; for a chat with no registered identity send
only the welcome+registration prompt; otherwise converse via the agent
(falling back to the decision prompt when the agent raises) or send the
decision prompt when there is no text or no agent. -/
def handleMessage (env : Env) (allowed : Option Int) (store : Store)
    (msg : MessageEvent) (promptText : String) : Store × List Effect :=
  if allowedMismatch allowed msg.chatId then (store, [])
  else
    match msg.chatId with
    | none => (store, [])
    | some chat =>
        if ¬ env.isRegistered chat then
          (store, [Effect.sendText chat welcomeText true
              [("Register to check", "register")]])
        else if msg.text ≠ "" ∧ env.agentAvailable then
          if env.agentOk then
            (store, [Effect.agentQuery msg.text,
                     Effect.sendText chat (env.agentResponse msg.text) false []])
          else
            let fb := sendDecisionPrompt chat promptText none none none none store
            (fb.1, Effect.agentQuery msg.text :: fb.2)
        else
          sendDecisionPrompt chat promptText none none none none store

/-- Run a sequence of callback-query events through the handler in arrival
order, concatenating the attempted effects — the Event Loop's dispatch of
one batch (telegram.py lines 283-295 restricted to button presses). -/
def runCallbacks (env : Env) (allowed : Option Int) :
    Store → List CallbackQuery → Store × List Effect
  | s, [] => (s, [])
  | s, cb :: rest =>
      let r₁ := handleCallbackQuery env allowed s cb
      let r₂ := runCallbacks env allowed r₁.1 rest
      (r₂.1, r₁.2 ++ r₂.2)

/-- `SendRequest` exactly as declared in src/server/schemas/app.py: only
`handle`, `chat_id` and `message` exist. -/
structure SendRequest where
  handle : Option String
  chat_id : Option Int
  message : String
deriving Repr, DecidableEq

/-- The attribute names the `SendRequest` schema declares; a Python
attribute access `payload.<name>` for any other name raises
`AttributeError`. -/
def sendRequestAttrs : List String := ["handle", "chat_id", "message"]

/-- HTTP outcome of the `/send` endpoint (app.py lines 156-185). -/
inductive SendOutcome where
  /-- `HTTPException(status_code=400, ...)` from a `ValueError` in resolution. -/
  | http400
  /-- `HTTPException(status_code=502, ...)` from the blanket `except Exception`. -/
  | http502
  /-- The `{"ok": True, ...}` success body. -/
  | ok (chatId : Int) (messageId : Option Int) (imageMessageId : Option Int)
deriving Repr, DecidableEq

/-- Image URL hard-coded in the `/send` handler (app.py line 166). -/
def sendImageUrl : String := "https://i.imgur.com/SeO2KFF.jpeg"

/-- Module-level `_resolve_chat_id` of app.py (lines 136-149) — the same
logic as `TelegramClient._resolve_chat_id`; `none` models the raised
`ValueError`. -/
def appResolveChatId (env : Env) (handle : Option String) : Option Int :=
  resolveChatId env handle

/-- The `/send` endpoint handler (app.py lines 156-185).  After resolving
the chat id it sends the image, then evaluates `payload.sender_handle`;
`SendRequest` declares no such attribute (it is absent from
`sendRequestAttrs`), so the lookup raises `AttributeError`, the blanket
`except Exception` answers HTTP 502, and the decision-prompt branch guarded
here by the attribute's existence is dead code. -/
def sendHandler (env : Env) (store : Store) (payload : SendRequest) :
    SendOutcome × Store × List Effect :=
  match appResolveChatId env payload.handle with
  | none => (SendOutcome.http400, store, [])
  | some resolvedChatId =>
      let imageEffect := Effect.sendPhoto resolvedChatId sendImageUrl
      let imageMessageId := env.photoMessageId
      if "sender_handle" ∈ sendRequestAttrs then
        let r := sendDecisionPrompt resolvedChatId
          "Your secret admirer sent you a signal, do you want to open it?"
          imageMessageId (some payload.message) imageMessageId none store
        (SendOutcome.ok resolvedChatId none imageMessageId, r.1, imageEffect :: r.2)
      else
        (SendOutcome.http502, store, [imageEffect])

/-- Two strings whose underlying character lists have different heads are
different. -/
theorem string_ne_of_head_ne (s t : String)
    (h : s.data.head? ≠ t.data.head?) : s ≠ t := by
  intro he
  exact h (by rw [he])

theorem data_append (s t : String) : (s ++ t).data = s.data ++ t.data := by
  rfl

/-- Splitting `"open:" ++ sfx` at the first colon yields `"open"` and the
suffix, whatever the suffix contains. -/
theorem splitFirstColonAux_open (sfx : String) :
    splitFirstColonAux (("open:" ++ sfx).data) = some ("open".data, sfx.data) := by
  rw [data_append]
  show splitFirstColonAux ('o' :: 'p' :: 'e' :: 'n' :: ':' :: sfx.data) = _
  simp [splitFirstColonAux]

theorem parseCbData_open (sfx : String) :
    parseCbData ("open:" ++ sfx) = ("open", pyParseInt sfx) := by
  unfold parseCbData
  rw [splitFirstColonAux_open]

/-- Splitting `"ignore:" ++ sfx` at the first colon yields `"ignore"` and
the suffix. -/
theorem splitFirstColonAux_ignore (sfx : String) :
    splitFirstColonAux (("ignore:" ++ sfx).data) = some ("ignore".data, sfx.data) := by
  rw [data_append]
  show splitFirstColonAux ('i' :: 'g' :: 'n' :: 'o' :: 'r' :: 'e' :: ':' :: sfx.data) = _
  simp [splitFirstColonAux]

theorem parseCbData_ignore (sfx : String) :
    parseCbData ("ignore:" ++ sfx) = ("ignore", pyParseInt sfx) := by
  unfold parseCbData
  rw [splitFirstColonAux_ignore]

/-- Splitting `"accept:" ++ sfx` at the first colon. -/
theorem splitFirstColonAux_accept (sfx : String) :
    splitFirstColonAux (("accept:" ++ sfx).data) = some ("accept".data, sfx.data) := by
  rw [data_append]
  show splitFirstColonAux ('a' :: 'c' :: 'c' :: 'e' :: 'p' :: 't' :: ':' :: sfx.data) = _
  simp [splitFirstColonAux]

theorem parseCbData_accept (sfx : String) :
    parseCbData ("accept:" ++ sfx) = ("accept", pyParseInt sfx) := by
  unfold parseCbData
  rw [splitFirstColonAux_accept]

/-- Splitting `"decline_accept:" ++ sfx` at the first colon. -/
theorem splitFirstColonAux_declineAccept (sfx : String) :
    splitFirstColonAux (("decline_accept:" ++ sfx).data)
      = some ("decline_accept".data, sfx.data) := by
  rw [data_append]
  show splitFirstColonAux ('d' :: 'e' :: 'c' :: 'l' :: 'i' :: 'n' :: 'e' :: '_' ::
    'a' :: 'c' :: 'c' :: 'e' :: 'p' :: 't' :: ':' :: sfx.data) = _
  simp [splitFirstColonAux]

theorem parseCbData_declineAccept (sfx : String) :
    parseCbData ("decline_accept:" ++ sfx) = ("decline_accept", pyParseInt sfx) := by
  unfold parseCbData
  rw [splitFirstColonAux_declineAccept]

theorem listReplaceAux_nil (pat rep : List Char) (fuel : Nat) :
    listReplaceAux pat rep fuel [] = [] := by
  cases fuel <;> rfl

/-- The fuel of `listReplaceAux` is irrelevant once it covers the list. -/
theorem listReplaceAux_congr (pat rep : List Char) :
    ∀ f₁ f₂ l, l.length ≤ f₁ → l.length ≤ f₂ →
      listReplaceAux pat rep f₁ l = listReplaceAux pat rep f₂ l := by
  intro f₁
  induction f₁ with
  | zero =>
      intro f₂ l h₁ _
      have : l = [] := List.eq_nil_of_length_eq_zero (Nat.le_zero.mp h₁)
      subst this
      rw [listReplaceAux_nil, listReplaceAux_nil]
  | succ n ih =>
      intro f₂ l h₁ h₂
      cases l with
      | nil => rw [listReplaceAux_nil, listReplaceAux_nil]
      | cons c cs =>
          cases f₂ with
          | zero => simp at h₂
          | succ m =>
              show (if pat ≠ [] ∧ pat.isPrefixOf (c :: cs) then
                  rep ++ listReplaceAux pat rep n (cs.drop (pat.length - 1))
                else c :: listReplaceAux pat rep n cs) = _
              simp only [List.length_cons, Nat.succ_le_succ_iff] at h₁ h₂
              have hr : listReplaceAux pat rep (m + 1) (c :: cs)
                  = (if pat ≠ [] ∧ pat.isPrefixOf (c :: cs) then
                      rep ++ listReplaceAux pat rep m (cs.drop (pat.length - 1))
                    else c :: listReplaceAux pat rep m cs) := rfl
              rw [hr]
              by_cases hc : pat ≠ [] ∧ pat.isPrefixOf (c :: cs)
              · have hd : (cs.drop (pat.length - 1)).length ≤ cs.length := by
                  simp [List.length_drop]
                rw [if_pos hc, if_pos hc,
                  ih m _ (le_trans hd h₁) (le_trans hd h₂)]
              · rw [if_neg hc, if_neg hc, ih m _ h₁ h₂]

/-- A pattern beginning with a character absent from `l` is never replaced. -/
theorem listReplace_of_not_mem (pat rep l : List Char) (c : Char)
    (hpat : pat.head? = some c) (hmem : c ∉ l) :
    listReplace pat rep l = l := by
  induction l with
  | nil => rfl
  | cons hd tl ih =>
      have hne : pat ≠ [] := by
        intro he
        rw [he] at hpat
        exact Option.noConfusion hpat
      have hpre : ¬ (pat.isPrefixOf (hd :: tl) = true) := by
        intro hp
        obtain ⟨p, ps, hps⟩ := List.exists_cons_of_ne_nil hne
        rw [hps] at hpat hp
        have hph : p = hd :=
          (List.cons_prefix_cons.mp (List.isPrefixOf_iff_prefix.mp hp)).1
        have hch : c = hd := by
          simp only [List.head?_cons, Option.some.injEq] at hpat
          rw [hpat] at hph
          exact hph
        exact hmem (hch ▸ List.mem_cons_self hd tl)
      have htl : c ∉ tl := fun hm => hmem (List.mem_cons_of_mem hd hm)
      show listReplaceAux pat rep (tl.length + 1) (hd :: tl) = hd :: tl
      have hr : listReplaceAux pat rep (tl.length + 1) (hd :: tl)
          = (if pat ≠ [] ∧ pat.isPrefixOf (hd :: tl) then
              rep ++ listReplaceAux pat rep tl.length (tl.drop (pat.length - 1))
            else hd :: listReplaceAux pat rep tl.length tl) := rfl
      rw [hr, if_neg (fun hc => hpre hc.2)]
      exact congrArg (hd :: ·) (ih htl)

/-- Replacement at an exact pattern occurrence at the head. -/
theorem listReplace_head_occurrence (pat rep l : List Char) (hne : pat ≠ []) :
    listReplace pat rep (pat ++ l) = rep ++ listReplace pat rep l := by
  obtain ⟨p, ps, hps⟩ := List.exists_cons_of_ne_nil hne
  subst hps
  have hpre : (p :: ps).isPrefixOf (p :: ps ++ l) = true := by
    rw [List.isPrefixOf_iff_prefix]
    exact ⟨l, rfl⟩
  show listReplaceAux (p :: ps) rep ((p :: ps ++ l).length) (p :: ps ++ l)
      = rep ++ listReplace (p :: ps) rep l
  have hr : listReplaceAux (p :: ps) rep ((p :: ps ++ l).length) (p :: ps ++ l)
      = (if (p :: ps) ≠ [] ∧ (p :: ps).isPrefixOf (p :: (ps ++ l)) then
          rep ++ listReplaceAux (p :: ps) rep ((p :: (ps ++ l)).length - 1)
            ((ps ++ l).drop ((p :: ps).length - 1))
        else p :: listReplaceAux (p :: ps) rep ((p :: (ps ++ l)).length - 1) (ps ++ l)) := rfl
  rw [hr, if_pos ⟨by simp, by rw [List.cons_append] at hpre; exact hpre⟩]
  have hdrop : (ps ++ l).drop ((p :: ps).length - 1) = l := by
    simp
  rw [hdrop]
  have hlen : l.length ≤ (p :: (ps ++ l)).length - 1 := by
    simp
  exact congrArg (rep ++ ·)
    (listReplaceAux_congr _ _ _ _ _ (by simp) (le_refl _))

/-- `"ignore".replace("ignore", "open") = "open"`. -/
theorem pyReplace_ignore_plain : pyReplace "ignore" "ignore" "open" = "open" := by
  rfl

/-- Replacing `ignore` by `open` in `"ignore:" ++ sfx` when the suffix
contains no `i` (decimal-digit suffixes in particular). -/
theorem pyReplace_ignore_sfx (sfx : String)
    (h : 'i' ∉ sfx.data) :
    pyReplace ("ignore:" ++ sfx) "ignore" "open" = "open:" ++ sfx := by
  unfold pyReplace
  rw [data_append]
  show String.mk (listReplace "ignore".data "open".data
    ("ignore".data ++ (':' :: sfx.data))) = _
  rw [listReplace_head_occurrence _ _ _ (by simp)]
  have hmem : 'i' ∉ (':' :: sfx.data) := by
    intro hm
    rcases List.mem_cons.mp hm with h1 | h1
    · exact absurd h1 (by decide)
    · exact h h1
  rw [listReplace_of_not_mem _ _ _ 'i' (by rfl) hmem]
  rfl

/-- Digit characters are not the letter `i`. -/
theorem digit_ne_i (l : List Char) (h : l.all Char.isDigit) : 'i' ∉ l := by
  intro hm
  have := List.all_eq_true.mp h 'i' hm
  simp [Char.isDigit] at this

theorem parseCbData_register : parseCbData "register" = ("register", none) := by
  decide

/-- Dispatch of `_handle_callback_query` to the `open` branch. -/
theorem handleCallbackQuery_to_open (env : Env) (allowed : Option Int)
    (store : Store) (cb : CallbackQuery) (data cqid : String) (chat mid : Int)
    (hmm : allowedMismatch allowed cb.chatId = false)
    (hdata : cb.data = some data) (hid : cb.id = some cqid)
    (hchat : cb.chatId = some chat) (hmid : cb.messageId = some mid)
    (hq : cqid ≠ "") (hc : chat ≠ 0) (hm : mid ≠ 0)
    (hact : (parseCbData data).1 = "open") :
    handleCallbackQuery env allowed store cb
      = openBranch store chat mid cqid data (parseCbData data).2 := by
  have hreg : data ≠ "register" := by
    intro he
    rw [he, parseCbData_register] at hact
    exact absurd hact (by decide)
  have hd : data ≠ "" := by
    intro he
    rw [he] at hact
    exact absurd hact (by decide)
  have hmm' : allowedMismatch allowed (some chat) = false := by
    rw [hchat] at hmm
    exact hmm
  simp [handleCallbackQuery, hmm', hdata, hid, hchat, hmid, hreg, hd, hq, hc, hm,
    optStrTruthy, optIntTruthy, hact]

/-- Dispatch of `_handle_callback_query` to the `accept` branch. -/
theorem handleCallbackQuery_to_accept (env : Env) (allowed : Option Int)
    (store : Store) (cb : CallbackQuery) (data cqid : String) (chat mid : Int)
    (hmm : allowedMismatch allowed cb.chatId = false)
    (hdata : cb.data = some data) (hid : cb.id = some cqid)
    (hchat : cb.chatId = some chat) (hmid : cb.messageId = some mid)
    (hq : cqid ≠ "") (hc : chat ≠ 0) (hm : mid ≠ 0)
    (hact : (parseCbData data).1 = "accept") :
    handleCallbackQuery env allowed store cb
      = acceptBranch env store chat mid cqid data := by
  have hreg : data ≠ "register" := by
    intro he
    rw [he, parseCbData_register] at hact
    exact absurd hact (by decide)
  have hd : data ≠ "" := by
    intro he
    rw [he] at hact
    exact absurd hact (by decide)
  have hmm' : allowedMismatch allowed (some chat) = false := by
    rw [hchat] at hmm
    exact hmm
  simp [handleCallbackQuery, hmm', hdata, hid, hchat, hmid, hreg, hd, hq, hc, hm,
    optStrTruthy, optIntTruthy, hact]

/-- Dispatch of `_handle_callback_query` to the decline branch. -/
theorem handleCallbackQuery_to_decline (env : Env) (allowed : Option Int)
    (store : Store) (cb : CallbackQuery) (data cqid : String) (chat mid : Int)
    (hmm : allowedMismatch allowed cb.chatId = false)
    (hdata : cb.data = some data) (hid : cb.id = some cqid)
    (hchat : cb.chatId = some chat) (hmid : cb.messageId = some mid)
    (hq : cqid ≠ "") (hc : chat ≠ 0) (hm : mid ≠ 0)
    (hact : (parseCbData data).1 = "ignore" ∨ (parseCbData data).1 = "decline_accept") :
    handleCallbackQuery env allowed store cb
      = declineBranch env store chat mid cqid data (parseCbData data).1
          (parseCbData data).2 := by
  have hreg : data ≠ "register" := by
    intro he
    rcases hact with h | h <;> rw [he, parseCbData_register] at h <;>
      exact absurd h (by decide)
  have hd : data ≠ "" := by
    intro he
    rcases hact with h | h <;> rw [he] at h <;> exact absurd h (by decide)
  have hno : ¬ (parseCbData data).1 = "open" := by
    rcases hact with h | h <;> rw [h] <;> decide
  have hna : ¬ (parseCbData data).1 = "accept" := by
    rcases hact with h | h <;> rw [h] <;> decide
  have hmm' : allowedMismatch allowed (some chat) = false := by
    rw [hchat] at hmm
    exact hmm
  simp [handleCallbackQuery, hmm', hdata, hid, hchat, hmid, hreg, hd, hq, hc, hm,
    optStrTruthy, optIntTruthy, hno, hna, hact]

/-- Dispatch of `_handle_callback_query` to the registration branch. -/
theorem handleCallbackQuery_to_register (env : Env) (allowed : Option Int)
    (store : Store) (cb : CallbackQuery) (cqid : String) (chat : Int)
    (hmm : allowedMismatch allowed cb.chatId = false)
    (hdata : cb.data = some "register") (hid : cb.id = some cqid)
    (hchat : cb.chatId = some chat)
    (hq : cqid ≠ "") (hc : chat ≠ 0) :
    handleCallbackQuery env allowed store cb
      = registerBranch env store chat cqid cb.messageId cb.username := by
  have hmm' : allowedMismatch allowed (some chat) = false := by
    rw [hchat] at hmm
    exact hmm
  simp [handleCallbackQuery, hmm', hdata, hid, hchat, hq, hc,
    optStrTruthy, optIntTruthy]

theorem string_eq_of_data_eq (s t : String) (h : s.data = t.data) : s = t := by
  cases s
  cases t
  exact congrArg String.mk h

theorem acceptBranch_absent (env : Env) (store : Store) (chat mid : Int)
    (cqid data : String) (h : storeGet store (chat, data) = none) :
    acceptBranch env store chat mid cqid data
      = (store, [Effect.ackCallback cqid (some "Message accepted!")]) := by
  simp [acceptBranch, h]

theorem acceptBranch_present (env : Env) (store : Store) (chat mid : Int)
    (cqid data : String) (pd : PendingData) (m : String)
    (hget : storeGet store (chat, data) = some pd)
    (hmsg : pd.message = some m) (hm0 : m ≠ "") :
    acceptBranch env store chat mid cqid data
      = (storeErase store (chat, data),
         Effect.chainStore m :: Effect.editText chat mid (some m) ::
         Effect.sendText chat (revealText pd.senderHandle (some (env.chain m))) true [] ::
         ((if optStrTruthy pd.senderHandle ∧ env.agentAvailable then
             acceptAgentBlock env chat pd
           else []) ++
          [Effect.ackCallback cqid (some "Message accepted!")])) := by
  simp [acceptBranch, hget, hmsg, optStrTruthy, hm0]

theorem acceptAgentBlock_resolved (env : Env) (chat sid : Int) (pd : PendingData)
    (hok : env.agentOk = true) (hres : resolveChatId env pd.senderHandle = some sid) :
    acceptAgentBlock env chat pd
      = [Effect.agentQuery (acceptAgentInput env chat pd),
         Effect.sendText sid
           (acceptedNoticeText (env.agentResponse (acceptAgentInput env chat pd))) false []] := by
  simp [acceptAgentBlock, hok, hres]

/-- Replaying an accept press whose key is no longer stored any number of
times yields only acknowledgments and leaves the store untouched. -/
theorem runCallbacks_accept_gone (env : Env) (allowed : Option Int)
    (cb : CallbackQuery) (data cqid : String) (chat mid : Int)
    (hmm : allowedMismatch allowed cb.chatId = false)
    (hdata : cb.data = some data) (hid : cb.id = some cqid)
    (hchat : cb.chatId = some chat) (hmid : cb.messageId = some mid)
    (hq : cqid ≠ "") (hc : chat ≠ 0) (hm : mid ≠ 0)
    (hact : (parseCbData data).1 = "accept") :
    ∀ (n : Nat) (store : Store), storeGet store (chat, data) = none →
      runCallbacks env allowed store (List.replicate n cb)
        = (store, List.replicate n (Effect.ackCallback cqid (some "Message accepted!"))) := by
  intro n
  induction n with
  | zero => intro store _; rfl
  | succ k ih =>
      intro store hnone
      have h1 : handleCallbackQuery env allowed store cb
          = (store, [Effect.ackCallback cqid (some "Message accepted!")]) := by
        rw [handleCallbackQuery_to_accept env allowed store cb data cqid chat mid
          hmm hdata hid hchat hmid hq hc hm hact]
        exact acceptBranch_absent env store chat mid cqid data hnone
      rw [List.replicate_succ, runCallbacks, h1, ih store hnone]
      rfl

/-- C1: for every sequence of inbound events consisting of at-least-once
deliveries of the same accept press for a stored interaction, the reveal,
the persistence write and the sender notification each fire exactly once:
the first handling removes the interaction's key from the store, and every
replayed press finds the key absent and performs no side effect beyond the
acknowledgment. -/
theorem c1_side_effects_fire_exactly_once
    (env : Env) (allowed : Option Int) (store : Store) (cb : CallbackQuery)
    (data cqid : String) (chat mid sid : Int) (pd : PendingData) (m : String)
    (n : Nat)
    (hmm : allowedMismatch allowed cb.chatId = false)
    (hdata : cb.data = some data) (hid : cb.id = some cqid)
    (hchat : cb.chatId = some chat) (hmid : cb.messageId = some mid)
    (hq : cqid ≠ "") (hc : chat ≠ 0) (hm : mid ≠ 0)
    (hact : (parseCbData data).1 = "accept")
    (hget : storeGet store (chat, data) = some pd)
    (hmsg : pd.message = some m) (hm0 : m ≠ "")
    (hsh : optStrTruthy pd.senderHandle = true)
    (hav : env.agentAvailable = true) (hok : env.agentOk = true)
    (hres : resolveChatId env pd.senderHandle = some sid) :
    storeGet (runCallbacks env allowed store (List.replicate (n + 1) cb)).1 (chat, data) = none ∧
    (runCallbacks env allowed store (List.replicate (n + 1) cb)).2.count
      (Effect.chainStore m) = 1 ∧
    (runCallbacks env allowed store (List.replicate (n + 1) cb)).2.count
      (Effect.sendText chat (revealText pd.senderHandle (some (env.chain m))) true []) = 1 ∧
    (runCallbacks env allowed store (List.replicate (n + 1) cb)).2.count
      (Effect.sendText sid
        (acceptedNoticeText (env.agentResponse (acceptAgentInput env chat pd))) false []) = 1 := by
  have hfirst : handleCallbackQuery env allowed store cb
      = (storeErase store (chat, data),
         [Effect.chainStore m, Effect.editText chat mid (some m),
          Effect.sendText chat (revealText pd.senderHandle (some (env.chain m))) true [],
          Effect.agentQuery (acceptAgentInput env chat pd),
          Effect.sendText sid
            (acceptedNoticeText (env.agentResponse (acceptAgentInput env chat pd))) false [],
          Effect.ackCallback cqid (some "Message accepted!")]) := by
    rw [handleCallbackQuery_to_accept env allowed store cb data cqid chat mid
      hmm hdata hid hchat hmid hq hc hm hact,
      acceptBranch_present env store chat mid cqid data pd m hget hmsg hm0,
      if_pos ⟨hsh, hav⟩, acceptAgentBlock_resolved env chat sid pd hok hres]
    rfl
  have hrest := runCallbacks_accept_gone env allowed cb data cqid chat mid
    hmm hdata hid hchat hmid hq hc hm hact n (storeErase store (chat, data))
    (storeGet_erase_self store (chat, data))
  have hrun : runCallbacks env allowed store (List.replicate (n + 1) cb)
      = (storeErase store (chat, data),
         [Effect.chainStore m, Effect.editText chat mid (some m),
          Effect.sendText chat (revealText pd.senderHandle (some (env.chain m))) true [],
          Effect.agentQuery (acceptAgentInput env chat pd),
          Effect.sendText sid
            (acceptedNoticeText (env.agentResponse (acceptAgentInput env chat pd))) false [],
          Effect.ackCallback cqid (some "Message accepted!")]
         ++ List.replicate n (Effect.ackCallback cqid (some "Message accepted!"))) := by
    rw [List.replicate_succ, runCallbacks, hfirst, hrest]
  rw [hrun]
  refine ⟨storeGet_erase_self store (chat, data), ?_, ?_, ?_⟩ <;>
    simp [List.count_cons, List.count_append, List.count_replicate, List.count_nil]

/-- Concrete run of `c1_side_effects_fire_exactly_once`: two deliveries of
the same accept press against a one-entry store. -/
def envW : Env :=
  ⟨fun _ => some 7, fun _ => true, fun _ _ => true, fun _ => some "alice",
   fun _ => ⟨true, "0xdeadbeef1234"⟩, true, true, fun _ => "keep going", some 5⟩

def pdAcceptW : PendingData := ⟨some "hello", some 4, some "bob", "accept"⟩

def cbAcceptW : CallbackQuery := ⟨some "accept:42", some "q1", some 1, some 9, none⟩

theorem c1_side_effects_fire_exactly_once_witness :
    storeGet (runCallbacks envW none [((1, "accept:42"), pdAcceptW)]
      (List.replicate 2 cbAcceptW)).1 (1, "accept:42") = none ∧
    (runCallbacks envW none [((1, "accept:42"), pdAcceptW)]
      (List.replicate 2 cbAcceptW)).2.count (Effect.chainStore "hello") = 1 ∧
    (runCallbacks envW none [((1, "accept:42"), pdAcceptW)]
      (List.replicate 2 cbAcceptW)).2.count
      (Effect.sendText 1 (revealText (some "bob") (some (envW.chain "hello"))) true []) = 1 ∧
    (runCallbacks envW none [((1, "accept:42"), pdAcceptW)]
      (List.replicate 2 cbAcceptW)).2.count
      (Effect.sendText 7
        (acceptedNoticeText (envW.agentResponse (acceptAgentInput envW 1 pdAcceptW))) false []) = 1 :=
  c1_side_effects_fire_exactly_once envW none [((1, "accept:42"), pdAcceptW)]
    cbAcceptW "accept:42" "q1" 1 9 7 pdAcceptW "hello" 1
    (by decide) rfl rfl rfl rfl (by decide) (by decide) (by decide)
    (by decide) (by decide) rfl (by decide) (by decide) rfl rfl (by decide)

/-- C4: for every accept press on a stored interaction, the reveal message
is sent for every persistence outcome, and the reveal text on failure is
the success text minus its trailing annotation: failure yields exactly the
base text and success yields the base text followed by the blockchain
annotation. -/
theorem c4_persistence_failure_never_blocks_reveal
    (env : Env) (allowed : Option Int) (store : Store) (cb : CallbackQuery)
    (data cqid : String) (chat mid : Int) (pd : PendingData) (m : String)
    (hmm : allowedMismatch allowed cb.chatId = false)
    (hdata : cb.data = some data) (hid : cb.id = some cqid)
    (hchat : cb.chatId = some chat) (hmid : cb.messageId = some mid)
    (hq : cqid ≠ "") (hc : chat ≠ 0) (hm : mid ≠ 0)
    (hact : (parseCbData data).1 = "accept")
    (hget : storeGet store (chat, data) = some pd)
    (hmsg : pd.message = some m) (hm0 : m ≠ "") :
    Effect.sendText chat (revealText pd.senderHandle (some (env.chain m))) true []
      ∈ (handleCallbackQuery env allowed store cb).2 ∧
    (∀ r : ChainResult, r.success = false →
      revealText pd.senderHandle (some r) = revealBase pd.senderHandle) ∧
    (∀ r : ChainResult, r.success = true →
      revealText pd.senderHandle (some r)
        = revealBase pd.senderHandle
          ++ ("\n\n🔗 Stored on blockchain: " ++ shortHash r.transactionHash)) := by
  refine ⟨?_, ?_, ?_⟩
  · rw [handleCallbackQuery_to_accept env allowed store cb data cqid chat mid
      hmm hdata hid hchat hmid hq hc hm hact,
      acceptBranch_present env store chat mid cqid data pd m hget hmsg hm0]
    simp
  · intro r hr
    simp [revealText, hr]
  · intro r hr
    simp [revealText, hr, String.append_assoc]

/-- Environment whose persistence collaborator reports failure. -/
def envFailW : Env :=
  ⟨fun _ => some 7, fun _ => true, fun _ _ => true, fun _ => some "alice",
   fun _ => ⟨false, ""⟩, true, true, fun _ => "keep going", some 5⟩

theorem c4_persistence_failure_never_blocks_reveal_witness :
    Effect.sendText 1 (revealText (some "bob") (some (envFailW.chain "hello"))) true []
      ∈ (handleCallbackQuery envFailW none [((1, "accept:42"), pdAcceptW)] cbAcceptW).2 ∧
    (∀ r : ChainResult, r.success = false →
      revealText (some "bob") (some r) = revealBase (some "bob")) ∧
    (∀ r : ChainResult, r.success = true →
      revealText (some "bob") (some r)
        = revealBase (some "bob")
          ++ ("\n\n🔗 Stored on blockchain: " ++ shortHash r.transactionHash)) :=
  c4_persistence_failure_never_blocks_reveal envFailW none
    [((1, "accept:42"), pdAcceptW)] cbAcceptW "accept:42" "q1" 1 9 pdAcceptW "hello"
    (by decide) rfl rfl rfl rfl (by decide) (by decide) (by decide)
    (by decide) (by decide) rfl (by decide)

/-- Effects that only acknowledge the button press to the transport. -/
def isAckEffect : Effect → Bool
  | Effect.ackCallback _ _ => true
  | _ => false

theorem openBranch_absent (store : Store) (chat mid : Int) (cqid data : String)
    (imid : Option Int) (h : storeGet store (chat, data) = none) :
    openBranch store chat mid cqid data imid
      = (store, [Effect.ackCallback cqid (some "Message opened")]) := by
  simp [openBranch, h]

theorem declineBranch_absent (env : Env) (store : Store) (chat mid : Int)
    (cqid data action : String) (imid : Option Int)
    (hnone : storeGet store (declineLookupKey chat data action) = none) :
    declineBranch env store chat mid cqid data action imid
      = (store,
         (match imid with
          | some i => [Effect.deleteMsg chat i]
          | none => []) ++
         [Effect.deleteMsg chat mid, Effect.sendText chat killsText true [],
          Effect.ackCallback cqid (some "Declined")]) := by
  simp [declineBranch, hnone, storeErase_of_get_none store _ hnone]

/-- A press from the claim's counterexample: `decline_accept` with no
stored interaction. -/
def cbDeclineAbsentW : CallbackQuery :=
  ⟨some "decline_accept", some "q2", some 1, some 9, none⟩

/-- C2 fails as stated: a `decline_accept` press whose key is absent from
the store still deletes the prompt message and sends the kills message —
two side effects beyond the acknowledgment. -/
theorem c2_absent_key_counterexample :
    handleCallbackQuery envW none ([] : Store) cbDeclineAbsentW
      = ([], [Effect.deleteMsg 1 9, Effect.sendText 1 killsText true [],
              Effect.ackCallback "q2" (some "Declined")]) ∧
    (handleCallbackQuery envW none ([] : Store) cbDeclineAbsentW).2.countP
        (fun e => !(isAckEffect e)) = 2 :=
  ⟨by decide, by decide⟩

/-- C2 amended: a press whose key is absent from the store performs no
store-consulting side effect — for `open` and `accept` the handler only
acknowledges and leaves the store unchanged; for `ignore` and
`decline_accept` it additionally deletes the prompt message (and the
correlated initial message when the token carries a parseable id) and
sends the kills text, but performs no reveal, persistence write or sender
notification, and again leaves the store unchanged. -/
theorem c2_absent_key_amended :
    (∀ (env : Env) (allowed : Option Int) (store : Store) (cb : CallbackQuery)
      (data cqid : String) (chat mid : Int),
      allowedMismatch allowed cb.chatId = false →
      cb.data = some data → cb.id = some cqid →
      cb.chatId = some chat → cb.messageId = some mid →
      cqid ≠ "" → chat ≠ 0 → mid ≠ 0 →
      (parseCbData data).1 = "open" →
      storeGet store (chat, data) = none →
      handleCallbackQuery env allowed store cb
        = (store, [Effect.ackCallback cqid (some "Message opened")])) ∧
    (∀ (env : Env) (allowed : Option Int) (store : Store) (cb : CallbackQuery)
      (data cqid : String) (chat mid : Int),
      allowedMismatch allowed cb.chatId = false →
      cb.data = some data → cb.id = some cqid →
      cb.chatId = some chat → cb.messageId = some mid →
      cqid ≠ "" → chat ≠ 0 → mid ≠ 0 →
      (parseCbData data).1 = "accept" →
      storeGet store (chat, data) = none →
      handleCallbackQuery env allowed store cb
        = (store, [Effect.ackCallback cqid (some "Message accepted!")])) ∧
    (∀ (env : Env) (allowed : Option Int) (store : Store) (cb : CallbackQuery)
      (data cqid : String) (chat mid : Int),
      allowedMismatch allowed cb.chatId = false →
      cb.data = some data → cb.id = some cqid →
      cb.chatId = some chat → cb.messageId = some mid →
      cqid ≠ "" → chat ≠ 0 → mid ≠ 0 →
      ((parseCbData data).1 = "ignore" ∨ (parseCbData data).1 = "decline_accept") →
      storeGet store (declineLookupKey chat data (parseCbData data).1) = none →
      handleCallbackQuery env allowed store cb
        = (store,
           (match (parseCbData data).2 with
            | some i => [Effect.deleteMsg chat i]
            | none => []) ++
           [Effect.deleteMsg chat mid, Effect.sendText chat killsText true [],
            Effect.ackCallback cqid (some "Declined")])) := by
  refine ⟨?_, ?_, ?_⟩
  · intro env allowed store cb data cqid chat mid hmm hdata hid hchat hmid hq hc hm hact hnone
    rw [handleCallbackQuery_to_open env allowed store cb data cqid chat mid
      hmm hdata hid hchat hmid hq hc hm hact]
    exact openBranch_absent store chat mid cqid data _ hnone
  · intro env allowed store cb data cqid chat mid hmm hdata hid hchat hmid hq hc hm hact hnone
    rw [handleCallbackQuery_to_accept env allowed store cb data cqid chat mid
      hmm hdata hid hchat hmid hq hc hm hact]
    exact acceptBranch_absent env store chat mid cqid data hnone
  · intro env allowed store cb data cqid chat mid hmm hdata hid hchat hmid hq hc hm hact hnone
    rw [handleCallbackQuery_to_decline env allowed store cb data cqid chat mid
      hmm hdata hid hchat hmid hq hc hm hact]
    exact declineBranch_absent env store chat mid cqid data _ _ hnone

theorem c2_absent_key_amended_witness :
    handleCallbackQuery envW none ([] : Store)
        (⟨some "open:42", some "q3", some 1, some 9, none⟩ : CallbackQuery)
      = ([], [Effect.ackCallback "q3" (some "Message opened")]) :=
  c2_absent_key_amended.1 envW none [] ⟨some "open:42", some "q3", some 1, some 9, none⟩
    "open:42" "q3" 1 9 (by decide) rfl rfl rfl rfl (by decide) (by decide)
    (by decide) (by decide) (by decide)

/-- Environment in which no chat is registered. -/
def envUnregW : Env :=
  ⟨fun _ => some 7, fun _ => false, fun _ _ => true, fun _ => some "alice",
   fun _ => ⟨true, "0xdeadbeef1234"⟩, true, true, fun _ => "keep going", some 5⟩

def pdOpenW : PendingData := ⟨some "hello", some 4, some "bob", "open"⟩

def cbOpenW : CallbackQuery := ⟨some "open:42", some "q4", some 1, some 9, none⟩

/-- C3 fails as stated: a button press from a chat with no registered
identity is not short-circuited — the open press below is processed in
full (messages deleted, accept prompt sent, store re-keyed) and no
welcome+registration prompt is issued. -/
theorem c3_unregistered_press_counterexample :
    envUnregW.isRegistered 1 = false ∧
    handleCallbackQuery envUnregW none [((1, "open:42"), pdOpenW)] cbOpenW
      = ([((1, "accept:42"), ⟨some "hello", some 4, some "bob", "accept"⟩)],
         [Effect.deleteMsg 1 4, Effect.deleteMsg 1 9,
          Effect.sendText 1 (acceptPromptText "hello") true
            [("Accept ✅", "accept:42"), ("Decline ❌", "decline_accept:42")],
          Effect.ackCallback "q4" (some "Message opened")]) ∧
    (handleCallbackQuery envUnregW none [((1, "open:42"), pdOpenW)] cbOpenW).2.countP
        (fun e => e == Effect.sendText 1 welcomeText true
          [("Register to check", "register")]) = 0 :=
  ⟨rfl, by decide, by decide⟩

/-- C3 amended: the registration gate short-circuits plain messages only —
a plain message from an unregistered chat yields exactly the
welcome+registration prompt and leaves the store untouched, while the
button-press handler never consults the registration directory at all (its
result is invariant under any change of `isRegistered`). -/
theorem c3_unregistered_gate_amended :
    (∀ (env : Env) (allowed : Option Int) (store : Store) (msg : MessageEvent)
      (promptText : String) (chat : Int),
      allowedMismatch allowed msg.chatId = false →
      msg.chatId = some chat →
      env.isRegistered chat = false →
      handleMessage env allowed store msg promptText
        = (store, [Effect.sendText chat welcomeText true
            [("Register to check", "register")]])) ∧
    (∀ (env : Env) (f : Int → Bool) (allowed : Option Int) (store : Store)
      (cb : CallbackQuery),
      handleCallbackQuery { env with isRegistered := f } allowed store cb
        = handleCallbackQuery env allowed store cb) := by
  constructor
  · intro env allowed store msg promptText chat hmm hchat hreg
    have hmm' : allowedMismatch allowed (some chat) = false := by
      rw [hchat] at hmm
      exact hmm
    simp [handleMessage, hmm', hchat, hreg]
  · intro env f allowed store cb
    rfl

theorem c3_unregistered_gate_amended_witness :
    handleMessage envUnregW none ([] : Store) (⟨some 1, none, "hi"⟩ : MessageEvent)
        "Approve this request?"
      = ([], [Effect.sendText 1 welcomeText true [("Register to check", "register")]]) :=
  c3_unregistered_gate_amended.1 envUnregW none [] ⟨some 1, none, "hi"⟩
    "Approve this request?" 1 (by decide) rfl rfl

theorem head_open_colon (sfx : String) :
    ("open:" ++ sfx).data.head? = some 'o' := by
  rw [data_append]
  rfl

theorem head_accept_colon (sfx : String) :
    ("accept:" ++ sfx).data.head? = some 'a' := by
  rw [data_append]
  rfl

theorem open_colon_ne_accept_colon (s t : String) :
    ("open:" ++ s) ≠ ("accept:" ++ t) :=
  string_ne_of_head_ne _ _ (by rw [head_open_colon, head_accept_colon]; decide)

theorem open_colon_ne_accept_plain (s : String) : ("open:" ++ s) ≠ "accept" :=
  string_ne_of_head_ne _ _ (by rw [head_open_colon]; decide)

theorem openBranch_present (store : Store) (chat mid : Int) (cqid data : String)
    (imid : Option Int) (cid : Int) (pd : PendingData) (m : String) (imgId : Int)
    (hget : storeGet store (chat, data) = some pd)
    (hmsg : pd.message = some m) (hm0 : m ≠ "")
    (himg : pd.imageMessageId = some imgId) (himg0 : imgId ≠ 0)
    (himid : imid = some cid) (hcid : cid ≠ 0) :
    openBranch store chat mid cqid data imid
      = (storeErase
           (storeInsert store (chat, "accept:" ++ toString cid)
             { pd with stage := "accept" })
           (chat, data),
         [Effect.deleteMsg chat imgId, Effect.deleteMsg chat mid,
          Effect.sendText chat (acceptPromptText m) true
            [("Accept ✅", "accept:" ++ toString cid),
             ("Decline ❌", "decline_accept:" ++ toString cid)],
          Effect.ackCallback cqid (some "Message opened")]) := by
  simp [openBranch, hget, hmsg, optStrTruthy, hm0, himg, himg0, himid, optIntTruthy, hcid]

/-- C5: an open press on a stored interaction (with a truthy payload and a
truthy image id, the shape `/send` creates) deletes the image message and
the prompt message before sending the accept prompt, and moves the store
entry: the stage-2 key `accept:<correlationId>` now holds the interaction
(stage advanced) and the stage-1 key is gone. -/
theorem c5_open_deletes_then_prompts_and_moves
    (env : Env) (allowed : Option Int) (store : Store) (cb : CallbackQuery)
    (sfx cqid : String) (chat mid imgId cid : Int) (pd : PendingData) (m : String)
    (hmm : allowedMismatch allowed cb.chatId = false)
    (hdata : cb.data = some ("open:" ++ sfx)) (hid : cb.id = some cqid)
    (hchat : cb.chatId = some chat) (hmid : cb.messageId = some mid)
    (hq : cqid ≠ "") (hc : chat ≠ 0) (hm : mid ≠ 0)
    (hsfx : pyParseInt sfx = some cid) (hcid : cid ≠ 0)
    (hget : storeGet store (chat, "open:" ++ sfx) = some pd)
    (hmsg : pd.message = some m) (hm0 : m ≠ "")
    (himg : pd.imageMessageId = some imgId) (himg0 : imgId ≠ 0) :
    (handleCallbackQuery env allowed store cb).2
      = [Effect.deleteMsg chat imgId, Effect.deleteMsg chat mid,
         Effect.sendText chat (acceptPromptText m) true
           [("Accept ✅", "accept:" ++ toString cid),
            ("Decline ❌", "decline_accept:" ++ toString cid)],
         Effect.ackCallback cqid (some "Message opened")] ∧
    storeGet (handleCallbackQuery env allowed store cb).1
        (chat, "accept:" ++ toString cid) = some { pd with stage := "accept" } ∧
    storeGet (handleCallbackQuery env allowed store cb).1
        (chat, "open:" ++ sfx) = none := by
  have hact : (parseCbData ("open:" ++ sfx)).1 = "open" := by
    rw [parseCbData_open]
  have himid : (parseCbData ("open:" ++ sfx)).2 = some cid := by
    rw [parseCbData_open]
    exact hsfx
  have hrw : handleCallbackQuery env allowed store cb
      = (storeErase
           (storeInsert store (chat, "accept:" ++ toString cid)
             { pd with stage := "accept" })
           (chat, "open:" ++ sfx),
         [Effect.deleteMsg chat imgId, Effect.deleteMsg chat mid,
          Effect.sendText chat (acceptPromptText m) true
            [("Accept ✅", "accept:" ++ toString cid),
             ("Decline ❌", "decline_accept:" ++ toString cid)],
          Effect.ackCallback cqid (some "Message opened")]) := by
    rw [handleCallbackQuery_to_open env allowed store cb ("open:" ++ sfx) cqid chat mid
      hmm hdata hid hchat hmid hq hc hm hact,
      openBranch_present store chat mid cqid ("open:" ++ sfx) _ cid pd m imgId
        hget hmsg hm0 himg himg0 himid hcid]
  have hkne : ((chat, "accept:" ++ toString cid) : StoreKey) ≠ (chat, "open:" ++ sfx) := by
    intro he
    exact (open_colon_ne_accept_colon sfx (toString cid))
      (congrArg Prod.snd he).symm
  rw [hrw]
  refine ⟨rfl, ?_, storeGet_erase_self _ _⟩
  rw [storeGet_erase_ne _ _ _ hkne, storeGet_insert_self]

theorem c5_open_deletes_then_prompts_and_moves_witness :
    (handleCallbackQuery envW none [((1, "open:42"), pdOpenW)] cbOpenW).2
      = [Effect.deleteMsg 1 4, Effect.deleteMsg 1 9,
         Effect.sendText 1 (acceptPromptText "hello") true
           [("Accept ✅", "accept:" ++ toString (42 : Int)),
            ("Decline ❌", "decline_accept:" ++ toString (42 : Int))],
         Effect.ackCallback "q4" (some "Message opened")] ∧
    storeGet (handleCallbackQuery envW none [((1, "open:42"), pdOpenW)] cbOpenW).1
        (1, "accept:" ++ toString (42 : Int)) = some { pdOpenW with stage := "accept" } ∧
    storeGet (handleCallbackQuery envW none [((1, "open:42"), pdOpenW)] cbOpenW).1
        (1, "open:" ++ "42") = none :=
  c5_open_deletes_then_prompts_and_moves envW none [((1, "open:42"), pdOpenW)]
    cbOpenW "42" "q4" 1 9 4 42 pdOpenW "hello"
    (by decide) (by decide) rfl rfl rfl (by decide) (by decide) (by decide)
    (by decide) (by decide) (by decide) rfl (by decide) rfl (by decide)

theorem declineNotice_ne_kills : declineNoticeText ≠ killsText := by
  decide

theorem declineBranch_effects_decline_accept (env : Env) (store : Store)
    (chat mid : Int) (cqid data : String) (imid : Option Int) :
    (declineBranch env store chat mid cqid data "decline_accept" imid).2
      = (match storeGet store (chat, data) with
         | some pd =>
             if optIntTruthy pd.imageMessageId then
               [Effect.deleteMsg chat (pd.imageMessageId.getD 0)]
             else []
         | none => []) ++
        (match imid with
         | some i => [Effect.deleteMsg chat i]
         | none => []) ++
        [Effect.deleteMsg chat mid, Effect.sendText chat killsText true [],
         Effect.ackCallback cqid (some "Declined")] := by
  simp [declineBranch, declineLookupKey]

theorem declineBranch_ignore_present (env : Env) (store : Store)
    (chat mid : Int) (cqid data : String) (imid : Option Int)
    (pd : PendingData) (sid : Int)
    (hget : storeGet store (chat, pyReplace data "ignore" "open") = some pd)
    (hsh : optStrTruthy pd.senderHandle = true)
    (hres : resolveChatId env pd.senderHandle = some sid) :
    declineBranch env store chat mid cqid data "ignore" imid
      = (storeErase store (chat, pyReplace data "ignore" "open"),
         Effect.sendText sid declineNoticeText true [] ::
         ((if optIntTruthy pd.imageMessageId then
             [Effect.deleteMsg chat (pd.imageMessageId.getD 0)]
           else []) ++
          (match imid with
           | some i => [Effect.deleteMsg chat i]
           | none => []) ++
          [Effect.deleteMsg chat mid, Effect.sendText chat killsText true [],
           Effect.ackCallback cqid (some "Declined")])) := by
  simp [declineBranch, declineLookupKey, hget, hsh, hres]

/-- C6: a `decline_accept` press (decline after opening) never notifies the
sender — the decline notice is sent to no one — while an `ignore` press on
a stored interaction whose sender handle is truthy and resolvable sends
the decline notice to the sender exactly once. -/
theorem c6_decline_notification_asymmetry :
    (∀ (env : Env) (allowed : Option Int) (store : Store) (cb : CallbackQuery)
      (data cqid : String) (chat mid sid : Int),
      allowedMismatch allowed cb.chatId = false →
      cb.data = some data → cb.id = some cqid →
      cb.chatId = some chat → cb.messageId = some mid →
      cqid ≠ "" → chat ≠ 0 → mid ≠ 0 →
      (parseCbData data).1 = "decline_accept" →
      (handleCallbackQuery env allowed store cb).2.count
        (Effect.sendText sid declineNoticeText true []) = 0) ∧
    (∀ (env : Env) (allowed : Option Int) (store : Store) (cb : CallbackQuery)
      (data cqid : String) (chat mid sid : Int) (pd : PendingData),
      allowedMismatch allowed cb.chatId = false →
      cb.data = some data → cb.id = some cqid →
      cb.chatId = some chat → cb.messageId = some mid →
      cqid ≠ "" → chat ≠ 0 → mid ≠ 0 →
      (parseCbData data).1 = "ignore" →
      storeGet store (chat, pyReplace data "ignore" "open") = some pd →
      optStrTruthy pd.senderHandle = true →
      resolveChatId env pd.senderHandle = some sid →
      (handleCallbackQuery env allowed store cb).2.count
        (Effect.sendText sid declineNoticeText true []) = 1) := by
  constructor
  · intro env allowed store cb data cqid chat mid sid
      hmm hdata hid hchat hmid hq hc hm hact
    rw [handleCallbackQuery_to_decline env allowed store cb data cqid chat mid
      hmm hdata hid hchat hmid hq hc hm (Or.inr hact), hact,
      declineBranch_effects_decline_accept]
    rcases hpd : storeGet store (chat, data) with _ | pd <;>
      rcases himid : (parseCbData data).2 with _ | i <;>
        simp [List.count_append, List.count_cons, List.count_nil,
          declineNotice_ne_kills] <;>
        by_cases himg : optIntTruthy pd.imageMessageId = true <;>
          simp [himg, List.count_cons, declineNotice_ne_kills]
  · intro env allowed store cb data cqid chat mid sid pd
      hmm hdata hid hchat hmid hq hc hm hact hget hsh hres
    rw [handleCallbackQuery_to_decline env allowed store cb data cqid chat mid
      hmm hdata hid hchat hmid hq hc hm (Or.inl hact), hact,
      declineBranch_ignore_present env store chat mid cqid data _ pd sid hget hsh hres]
    rcases himid : (parseCbData data).2 with _ | i <;>
      by_cases himg : optIntTruthy pd.imageMessageId = true <;>
        simp [himg, List.count_append, List.count_cons, List.count_nil,
          declineNotice_ne_kills]

theorem c6_decline_notification_asymmetry_witness :
    (handleCallbackQuery envW none [((1, "open"), pdOpenW)]
        (⟨some "ignore", some "q5", some 1, some 9, none⟩ : CallbackQuery)).2.count
      (Effect.sendText 7 declineNoticeText true []) = 1 :=
  c6_decline_notification_asymmetry.2 envW none [((1, "open"), pdOpenW)]
    ⟨some "ignore", some "q5", some 1, some 9, none⟩ "ignore" "q5" 1 9 7 pdOpenW
    (by decide) rfl rfl rfl rfl (by decide) (by decide) (by decide)
    (by decide) (by decide) (by decide) rfl

/-- C7: every terminal transition leaves no dangling state — after an
accept press the pressed key is absent from the store; after a
`decline_accept` press the pressed key is absent; after an `ignore` press
the corresponding stage-1 `open` key is absent; and advancing a stored
interaction from `AwaitingOpen` to `AwaitingAccept` via an open press
leaves the old stage-1 key absent. -/
theorem c7_no_dangling_state_after_terminal_transition :
    (∀ (env : Env) (allowed : Option Int) (store : Store) (cb : CallbackQuery)
      (data cqid : String) (chat mid : Int),
      allowedMismatch allowed cb.chatId = false →
      cb.data = some data → cb.id = some cqid →
      cb.chatId = some chat → cb.messageId = some mid →
      cqid ≠ "" → chat ≠ 0 → mid ≠ 0 →
      (parseCbData data).1 = "accept" →
      storeGet (handleCallbackQuery env allowed store cb).1 (chat, data) = none) ∧
    (∀ (env : Env) (allowed : Option Int) (store : Store) (cb : CallbackQuery)
      (data cqid : String) (chat mid : Int),
      allowedMismatch allowed cb.chatId = false →
      cb.data = some data → cb.id = some cqid →
      cb.chatId = some chat → cb.messageId = some mid →
      cqid ≠ "" → chat ≠ 0 → mid ≠ 0 →
      (parseCbData data).1 = "decline_accept" →
      storeGet (handleCallbackQuery env allowed store cb).1 (chat, data) = none) ∧
    (∀ (env : Env) (allowed : Option Int) (store : Store) (cb : CallbackQuery)
      (data cqid : String) (chat mid : Int),
      allowedMismatch allowed cb.chatId = false →
      cb.data = some data → cb.id = some cqid →
      cb.chatId = some chat → cb.messageId = some mid →
      cqid ≠ "" → chat ≠ 0 → mid ≠ 0 →
      (parseCbData data).1 = "ignore" →
      storeGet (handleCallbackQuery env allowed store cb).1
        (chat, pyReplace data "ignore" "open") = none) ∧
    (∀ (env : Env) (allowed : Option Int) (store : Store) (cb : CallbackQuery)
      (data cqid : String) (chat mid : Int) (pd : PendingData) (m : String),
      allowedMismatch allowed cb.chatId = false →
      cb.data = some data → cb.id = some cqid →
      cb.chatId = some chat → cb.messageId = some mid →
      cqid ≠ "" → chat ≠ 0 → mid ≠ 0 →
      (parseCbData data).1 = "open" →
      storeGet store (chat, data) = some pd →
      pd.message = some m → m ≠ "" →
      storeGet (handleCallbackQuery env allowed store cb).1 (chat, data) = none) := by
  refine ⟨?_, ?_, ?_, ?_⟩
  · intro env allowed store cb data cqid chat mid hmm hdata hid hchat hmid hq hc hm hact
    rw [handleCallbackQuery_to_accept env allowed store cb data cqid chat mid
      hmm hdata hid hchat hmid hq hc hm hact]
    rcases hpd : storeGet store (chat, data) with _ | pd
    · rw [acceptBranch_absent env store chat mid cqid data hpd]
      exact hpd
    · have h1 : (acceptBranch env store chat mid cqid data).1
          = storeErase store (chat, data) := by
        simp [acceptBranch, hpd]
      rw [h1]
      exact storeGet_erase_self _ _
  · intro env allowed store cb data cqid chat mid hmm hdata hid hchat hmid hq hc hm hact
    rw [handleCallbackQuery_to_decline env allowed store cb data cqid chat mid
      hmm hdata hid hchat hmid hq hc hm (Or.inr hact), hact]
    have h1 : (declineBranch env store chat mid cqid data "decline_accept"
        (parseCbData data).2).1 = storeErase store (chat, data) := by
      simp [declineBranch, declineLookupKey]
    rw [h1]
    exact storeGet_erase_self _ _
  · intro env allowed store cb data cqid chat mid hmm hdata hid hchat hmid hq hc hm hact
    rw [handleCallbackQuery_to_decline env allowed store cb data cqid chat mid
      hmm hdata hid hchat hmid hq hc hm (Or.inl hact), hact]
    have h1 : (declineBranch env store chat mid cqid data "ignore"
        (parseCbData data).2).1
        = storeErase store (chat, pyReplace data "ignore" "open") := by
      simp [declineBranch, declineLookupKey]
    rw [h1]
    exact storeGet_erase_self _ _
  · intro env allowed store cb data cqid chat mid pd m
      hmm hdata hid hchat hmid hq hc hm hact hget hmsg hm0
    rw [handleCallbackQuery_to_open env allowed store cb data cqid chat mid
      hmm hdata hid hchat hmid hq hc hm hact]
    have h1 : ∃ s₁, (openBranch store chat mid cqid data (parseCbData data).2).1
        = storeErase s₁ (chat, data) := by
      refine ⟨storeInsert store
        (chat,
          if optIntTruthy (parseCbData data).2 then
            "accept:" ++ toString ((parseCbData data).2.getD 0)
          else "accept")
        { pd with stage := "accept" }, ?_⟩
      simp [openBranch, hget, hmsg, optStrTruthy, hm0]
    obtain ⟨s₁, hs₁⟩ := h1
    rw [hs₁]
    exact storeGet_erase_self _ _

theorem c7_no_dangling_state_after_terminal_transition_witness :
    storeGet (handleCallbackQuery envW none [((1, "accept:42"), pdAcceptW)]
        cbAcceptW).1 (1, "accept:42") = none :=
  c7_no_dangling_state_after_terminal_transition.1 envW none
    [((1, "accept:42"), pdAcceptW)] cbAcceptW "accept:42" "q1" 1 9
    (by decide) rfl rfl rfl rfl (by decide) (by decide) (by decide) (by decide)

theorem openBranch_present_noCorrelation (store : Store) (chat mid : Int)
    (cqid data : String) (pd : PendingData) (m : String) (imgId : Int)
    (hget : storeGet store (chat, data) = some pd)
    (hmsg : pd.message = some m) (hm0 : m ≠ "")
    (himg : pd.imageMessageId = some imgId) (himg0 : imgId ≠ 0) :
    openBranch store chat mid cqid data none
      = (storeErase
           (storeInsert store (chat, "accept") { pd with stage := "accept" })
           (chat, data),
         [Effect.deleteMsg chat imgId, Effect.deleteMsg chat mid,
          Effect.sendText chat (acceptPromptText m) true
            [("Accept ✅", "accept"), ("Decline ❌", "decline_accept")],
          Effect.ackCallback cqid (some "Message opened")]) := by
  simp [openBranch, hget, hmsg, optStrTruthy, hm0, himg, himg0, optIntTruthy]

/-- C8: a button press whose stage token carries a suffix that fails to
parse as an integer is still processed — the parse yields the action with
the correlation id absent, and an open press on a stored interaction
advances exactly as usual, re-keying under the plain `accept` token, so the
transition needs no correlation id. -/
theorem c8_malformed_suffix_tolerated
    (env : Env) (allowed : Option Int) (store : Store) (cb : CallbackQuery)
    (sfx cqid : String) (chat mid imgId : Int) (pd : PendingData) (m : String)
    (hmm : allowedMismatch allowed cb.chatId = false)
    (hdata : cb.data = some ("open:" ++ sfx)) (hid : cb.id = some cqid)
    (hchat : cb.chatId = some chat) (hmid : cb.messageId = some mid)
    (hq : cqid ≠ "") (hc : chat ≠ 0) (hm : mid ≠ 0)
    (hsfx : pyParseInt sfx = none)
    (hget : storeGet store (chat, "open:" ++ sfx) = some pd)
    (hmsg : pd.message = some m) (hm0 : m ≠ "")
    (himg : pd.imageMessageId = some imgId) (himg0 : imgId ≠ 0) :
    parseCbData ("open:" ++ sfx) = ("open", none) ∧
    (handleCallbackQuery env allowed store cb).2
      = [Effect.deleteMsg chat imgId, Effect.deleteMsg chat mid,
         Effect.sendText chat (acceptPromptText m) true
           [("Accept ✅", "accept"), ("Decline ❌", "decline_accept")],
         Effect.ackCallback cqid (some "Message opened")] ∧
    storeGet (handleCallbackQuery env allowed store cb).1 (chat, "accept")
      = some { pd with stage := "accept" } ∧
    storeGet (handleCallbackQuery env allowed store cb).1 (chat, "open:" ++ sfx)
      = none := by
  have hparse : parseCbData ("open:" ++ sfx) = ("open", none) := by
    rw [parseCbData_open, hsfx]
  have hrw : handleCallbackQuery env allowed store cb
      = (storeErase
           (storeInsert store (chat, "accept") { pd with stage := "accept" })
           (chat, "open:" ++ sfx),
         [Effect.deleteMsg chat imgId, Effect.deleteMsg chat mid,
          Effect.sendText chat (acceptPromptText m) true
            [("Accept ✅", "accept"), ("Decline ❌", "decline_accept")],
          Effect.ackCallback cqid (some "Message opened")]) := by
    rw [handleCallbackQuery_to_open env allowed store cb ("open:" ++ sfx) cqid chat mid
      hmm hdata hid hchat hmid hq hc hm (by rw [hparse])]
    rw [show (parseCbData ("open:" ++ sfx)).2 = none by rw [hparse]]
    exact openBranch_present_noCorrelation store chat mid cqid ("open:" ++ sfx)
      pd m imgId hget hmsg hm0 himg himg0
  have hkne : ((chat, "accept") : StoreKey) ≠ (chat, "open:" ++ sfx) := by
    intro he
    exact (open_colon_ne_accept_plain sfx) (congrArg Prod.snd he).symm
  rw [hrw]
  refine ⟨hparse, rfl, ?_, storeGet_erase_self _ _⟩
  rw [storeGet_erase_ne _ _ _ hkne, storeGet_insert_self]

theorem c8_malformed_suffix_tolerated_witness :
    parseCbData ("open:" ++ "abc") = ("open", none) ∧
    (handleCallbackQuery envW none [((1, "open:abc"), pdOpenW)]
        (⟨some "open:abc", some "q6", some 1, some 9, none⟩ : CallbackQuery)).2
      = [Effect.deleteMsg 1 4, Effect.deleteMsg 1 9,
         Effect.sendText 1 (acceptPromptText "hello") true
           [("Accept ✅", "accept"), ("Decline ❌", "decline_accept")],
         Effect.ackCallback "q6" (some "Message opened")] ∧
    storeGet (handleCallbackQuery envW none [((1, "open:abc"), pdOpenW)]
        (⟨some "open:abc", some "q6", some 1, some 9, none⟩ : CallbackQuery)).1
        (1, "accept") = some { pdOpenW with stage := "accept" } ∧
    storeGet (handleCallbackQuery envW none [((1, "open:abc"), pdOpenW)]
        (⟨some "open:abc", some "q6", some 1, some 9, none⟩ : CallbackQuery)).1
        (1, "open:" ++ "abc") = none :=
  c8_malformed_suffix_tolerated envW none [((1, "open:abc"), pdOpenW)]
    ⟨some "open:abc", some "q6", some 1, some 9, none⟩ "abc" "q6" 1 9 4 pdOpenW "hello"
    (by decide) (by decide) rfl rfl rfl (by decide) (by decide) (by decide)
    (by decide) (by decide) rfl (by decide) rfl (by decide)

/-- C9: `SendRequest` declares only `handle`, `chat_id` and `message`, so
the `/send` handler's access to `payload.sender_handle` raises
`AttributeError` after the image is sent: for every payload whose handle
resolves, the endpoint answers HTTP 502 with only the image-send effect —
the decision prompt is never sent and the store gains no `AwaitingOpen`
interaction. -/
theorem c9_send_endpoint_always_502
    (env : Env) (store : Store) (payload : SendRequest) (cid : Int)
    (hres : appResolveChatId env payload.handle = some cid) :
    ¬ ("sender_handle" ∈ sendRequestAttrs) ∧
    sendHandler env store payload
      = (SendOutcome.http502, store, [Effect.sendPhoto cid sendImageUrl]) := by
  refine ⟨by decide, ?_⟩
  simp [sendHandler, hres, sendRequestAttrs]

theorem c9_send_endpoint_always_502_witness :
    ¬ ("sender_handle" ∈ sendRequestAttrs) ∧
    sendHandler envW [] (⟨some "5", none, "yo"⟩ : SendRequest)
      = (SendOutcome.http502, [], [Effect.sendPhoto 5 sendImageUrl]) :=
  c9_send_endpoint_always_502 envW [] ⟨some "5", none, "yo"⟩ 5 (by decide)

/-- C10: a register press is acknowledged and its prompt edited to the
registration confirmation for every environment — in particular for
environments whose directory insert fails — because the handler discards
the insert's result and sends the confirmation unconditionally. -/
theorem c10_register_confirms_unconditionally
    (env : Env) (allowed : Option Int) (store : Store) (cb : CallbackQuery)
    (cqid : String) (chat mid : Int)
    (hmm : allowedMismatch allowed cb.chatId = false)
    (hdata : cb.data = some "register") (hid : cb.id = some cqid)
    (hchat : cb.chatId = some chat) (hmid : cb.messageId = some mid)
    (hq : cqid ≠ "") (hc : chat ≠ 0) (hm : mid ≠ 0) :
    handleCallbackQuery env allowed store cb
      = (store, [Effect.registerChat chat cb.username,
                 Effect.ackCallback cqid (some registrationCompleteText),
                 Effect.editText chat mid (some registrationCompleteText)]) := by
  rw [handleCallbackQuery_to_register env allowed store cb cqid chat
    hmm hdata hid hchat hq hc]
  simp [registerBranch, hmid, optIntTruthy, hm]

/-- Concrete register press against an environment whose directory insert
reports failure. -/
def envRegisterFailW : Env :=
  ⟨fun _ => some 7, fun _ => true, fun _ _ => false, fun _ => some "alice",
   fun _ => ⟨true, "0xdeadbeef1234"⟩, true, true, fun _ => "keep going", some 5⟩

theorem c10_register_confirms_unconditionally_witness :
    handleCallbackQuery envRegisterFailW none ([] : Store)
        (⟨some "register", some "q7", some 1, some 9, some "carol"⟩ : CallbackQuery)
      = ([], [Effect.registerChat 1 (some "carol"),
              Effect.ackCallback "q7" (some registrationCompleteText),
              Effect.editText 1 9 (some registrationCompleteText)]) :=
  c10_register_confirms_unconditionally envRegisterFailW none []
    ⟨some "register", some "q7", some 1, some 9, some "carol"⟩ "q7" 1 9
    (by decide) rfl rfl rfl rfl (by decide) (by decide) (by decide)
